import Mathlib

/-!
Verification model of the audio session manager in `src/app/page.tsx`.

The page consists of the `AudioPlayer` class (an `AudioContext`, an optional
`MediaStreamAudioDestinationNode` used as output route, and the current
`AudioBufferSourceNode`) together with the `Home` component's handlers
(`handlePlayClick`, `handleStopClick`, `handleStartRecording`,
`handleStopRecording`) and their React state (`isPlaying`, `recordings`,
`isRecording`) and refs (`audioSourceRef`, `mediaRecorderRef`,
`audioChunksRef`).

The code is single-threaded and event-driven, so it is modelled as a state
transition system.  `async` functions are split at their `await` suspension
points so that event-loop interleavings (a stop arriving while a play is
mid-fetch, delivery of `ended` events, `dataavailable` events) can be
expressed as traces of atomic steps.

External collaborators are modelled by their specified behaviour exactly as
far as the code observes it:
* fetching and decoding may fail (the outcome is a parameter);
* per the Web Audio API, a started `AudioBufferSourceNode` that is stopped
  (its scheduled stop time is reached) or plays to the end stops playing and
  its `ended` event is dispatched;
* per the MediaStream Recording API, `MediaRecorder.stop()` on an inactive
  recorder aborts with no effect, while on a capturing recorder it halts
  capture and fires the `onstop` handler; stopping a recorder does not end
  the tracks of its input stream;
* `URL.createObjectURL` mints a fresh address for a blob, modelled as the
  blob's index in an append-only table.
-/

/-- A captured audio fragment (the payload of one `dataavailable` event),
as raw bytes. -/
abbrev Frag := List Nat

/-- An immutable blob: its byte content and the MIME type string it was
constructed with (`new Blob(chunks, { type })` concatenates the chunks and
merely declares the type). -/
structure Blob where
  data : List Nat
  type : String
  deriving Repr, DecidableEq

/-- One `AudioBufferSourceNode` created by `playAudio`: the resource URL its
buffer was decoded from, whether `start` and `stop` have been called on it,
the destination it was connected to (`none` means the context's default
output, `some d` an index into the destination table), whether the UI
installed its `onended` handler, and how many times its `ended` event has
been delivered. -/
structure SourceNode where
  url : String
  started : Bool
  stopped : Bool
  dest : Option Nat
  onendedSet : Bool
  endedFired : Nat
  deriving Repr, DecidableEq

/-- One `MediaStreamAudioDestinationNode` together with the hidden `Audio`
element its stream is piped into: the device id the element was bound to by
`setSinkId` (`none` until the bind succeeds) and whether `audio.play()` has
run. -/
structure DestNode where
  sinkId : Option String
  playing : Bool
  deriving Repr, DecidableEq

/-- The state of a `MediaRecorder`. -/
inductive RecState where
  | recording
  | inactive
  deriving Repr, DecidableEq

/-- One `MediaRecorder`: the microphone stream it captures (an index into the
stream table) and its state. -/
structure Recorder where
  streamId : Nat
  state : RecState
  deriving Repr, DecidableEq

/-- The combined state of the `AudioPlayer` instance and the `Home`
component.  Created destinations, source nodes, recorders, microphone streams
and blobs live in append-only tables so that stale references stay
meaningful; the `AudioPlayer` fields and the React refs hold indices into
them.  An entry of `streams` is `true` while that microphone stream's tracks
are live.  `recordings` holds minted object URLs, modelled as indices into
`blobs`.  `endedQueue` holds `ended` events that are dispatched but not yet
delivered on the event loop. -/
structure AppState where
  audioContext : Option Nat
  ctxCreated : Nat
  dests : List DestNode
  destination : Option Nat
  nodes : List SourceNode
  audioSource : Option Nat
  isPlaying : Bool
  audioSourceRef : Option Nat
  recorders : List Recorder
  mediaRecorder : Option Nat
  audioChunks : List Frag
  streams : List Bool
  blobs : List Blob
  recordings : List Nat
  isRecording : Bool
  endedQueue : List Nat
  deriving Repr, DecidableEq

/-- The state on page load: nothing created yet. -/
def AppState.initial : AppState :=
  ⟨none, 0, [], none, [], none, false, none, [], none, [], [], [], [], false, []⟩

/-- The errors the fallible operations surface. -/
inductive Err where
  | sinkBindFailed
  | notInitialized
  | fetchFailed
  | decodeFailed
  | permissionDenied
  deriving Repr, DecidableEq

/-- Results of fallible calls are compared in concrete evaluations. -/
instance : DecidableEq (Except Err Nat) := fun a b =>
  match a, b with
  | Except.ok x, Except.ok y =>
      if h : x = y then isTrue (by rw [h]) else isFalse (by intro hc; cases hc; exact h rfl)
  | Except.error e, Except.error f =>
      if h : e = f then isTrue (by rw [h]) else isFalse (by intro hc; cases hc; exact h rfl)
  | Except.ok _, Except.error _ => isFalse (by intro hc; cases hc)
  | Except.error _, Except.ok _ => isFalse (by intro hc; cases hc)

/-- `AudioPlayer.init(outputDeviceId)`.  `outputDeviceId` is the string the
component passes from its select control; `""` (the "Default Output" choice)
is falsy in the `if (outputDeviceId)` test.  `bindOk` is the outcome of the
awaited `audio.setSinkId` call.  Mutations happen in source order: the
context is created only if absent; with a truthy device id a fresh
destination node is created and assigned to `this.destination` before the
sink bind is awaited, so a failing bind rethrows with the fresh, unbound
destination already installed. -/
def init (outputDeviceId : String) (bindOk : Bool) (s : AppState) :
    AppState × Option Err :=
  let s1 :=
    if s.audioContext.isSome then s
    else { s with audioContext := some s.ctxCreated, ctxCreated := s.ctxCreated + 1 }
  if outputDeviceId = "" then (s1, none)
  else
    let dId := s1.dests.length
    let s2 := { s1 with dests := s1.dests ++ [⟨none, false⟩], destination := some dId }
    if bindOk then
      ({ s2 with dests := s2.dests.set dId ⟨some outputDeviceId, true⟩ }, none)
    else
      (s2, some Err.sinkBindFailed)

/-- `node.stop()` on source node `i`.  Per the Web Audio API a started node
stops playing when its (immediate) scheduled stop time is reached and its
`ended` event is dispatched; a further `stop()` on an already stopped node
has no additional observable effect. -/
def stopNode (i : Nat) (s : AppState) : AppState :=
  match s.nodes.get? i with
  | none => s
  | some n =>
      if n.stopped then s
      else
        { s with nodes := s.nodes.set i { n with stopped := true },
                 endedQueue := s.endedQueue ++ [i] }

/-- `AudioPlayer.stopAudio()`: if `this.audioSource` is set, stop it and
clear the field; otherwise do nothing. -/
def stopAudio (s : AppState) : AppState :=
  match s.audioSource with
  | none => s
  | some i => { stopNode i s with audioSource := none }

/-- Outcome of the awaited `fetch` / `arrayBuffer` / `decodeAudioData`
sequence inside `playAudio`. -/
inductive FetchOutcome where
  | ok
  | fetchErr
  | decodeErr
  deriving Repr, DecidableEq

/-- The synchronous first half of `AudioPlayer.playAudio`, up to the `await
fetch(audioUrl)` suspension: throw `AudioContext not initialized` if the
context is missing, otherwise stop the currently held source (the field is
not cleared here). -/
def playAudio_begin (s : AppState) : AppState × Option Err :=
  match s.audioContext with
  | none => (s, some Err.notInitialized)
  | some _ =>
      match s.audioSource with
      | some i => (stopNode i s, none)
      | none => (s, none)

/-- The rest of `playAudio` after the fetch/decode suspension: a failed fetch
or decode rethrows with no further mutation; on success a fresh source node
is created, its buffer set, connected to `this.destination` when set (else
the context's default output), started, and assigned to `this.audioSource`;
its index is returned. -/
def playAudio_finish (url : String) (o : FetchOutcome) (s : AppState) :
    AppState × Except Err Nat :=
  match o with
  | FetchOutcome.fetchErr => (s, Except.error Err.fetchFailed)
  | FetchOutcome.decodeErr => (s, Except.error Err.decodeFailed)
  | FetchOutcome.ok =>
      let nId := s.nodes.length
      ({ s with nodes := s.nodes ++ [⟨url, true, false, s.destination, false, 0⟩],
                audioSource := some nId },
       Except.ok nId)

/-- `AudioPlayer.playAudio(audioUrl)` run without any interleaved event:
both halves in sequence. -/
def playAudio (url : String) (o : FetchOutcome) (s : AppState) :
    AppState × Except Err Nat :=
  match playAudio_begin s with
  | (s1, some e) => (s1, Except.error e)
  | (s1, none) => playAudio_finish url o s1

/-- Install the UI completion handler (`source.onended = ...`) on node `i`. -/
def setOnended (i : Nat) (s : AppState) : AppState :=
  match s.nodes.get? i with
  | none => s
  | some n => { s with nodes := s.nodes.set i { n with onendedSet := true } }

/-- The continuation of `handlePlayClick` once `playAudio` resumes: on
success store the returned source in `audioSourceRef`, set `isPlaying`, and
install the `onended` handler on the returned node; a thrown error is caught
and logged, and `isPlaying` is set to `false`. -/
def playResumeUI (url : String) (o : FetchOutcome) (s : AppState) : AppState :=
  match playAudio_finish url o s with
  | (s1, Except.error _) => { s1 with isPlaying := false }
  | (s1, Except.ok n) =>
      setOnended n { s1 with audioSourceRef := some n, isPlaying := true }

/-- `handlePlayClick(audioUrl)` run without any interleaved event. -/
def handlePlayClick (url : String) (o : FetchOutcome) (s : AppState) : AppState :=
  match playAudio_begin s with
  | (s1, some _) => { s1 with isPlaying := false }
  | (s1, none) => playResumeUI url o s1

/-- `handleStopClick`: only when `audioSourceRef` holds a source, call
`stopAudio`, set `isPlaying` to `false` and clear the ref. -/
def handleStopClick (s : AppState) : AppState :=
  match s.audioSourceRef with
  | none => s
  | some _ => { stopAudio s with isPlaying := false, audioSourceRef := none }

/-- Deliver the oldest dispatched `ended` event: the node's delivery count
rises, and if the UI handler was installed on that node it runs
(`setIsPlaying(false)` and clearing of `audioSourceRef`). -/
def deliverEnded (s : AppState) : AppState :=
  match s.endedQueue with
  | [] => s
  | i :: rest =>
      let s1 := { s with endedQueue := rest }
      match s1.nodes.get? i with
      | none => s1
      | some n =>
          let s2 :=
            { s1 with nodes := s1.nodes.set i { n with endedFired := n.endedFired + 1 } }
          if n.onendedSet then { s2 with isPlaying := false, audioSourceRef := none }
          else s2

/-- `handleStartRecording`.  `granted` is the outcome of the awaited
`getUserMedia`.  On success: a live stream is obtained, a fresh
`MediaRecorder` replaces `mediaRecorderRef.current`, the shared chunk buffer
is reset to `[]`, the `dataavailable` and `stop` handlers are registered,
capture starts and `isRecording` is set.  A previously installed recorder is
not stopped and keeps capturing.  On failure the error is caught inside the
handler and logged; nothing is mutated. -/
def handleStartRecording (granted : Bool) (s : AppState) : AppState × Option Err :=
  if granted then
    let streamId := s.streams.length
    let recId := s.recorders.length
    ({ s with streams := s.streams ++ [true],
              recorders := s.recorders ++ [⟨streamId, RecState.recording⟩],
              mediaRecorder := some recId,
              audioChunks := [],
              isRecording := true }, none)
  else (s, some Err.permissionDenied)

/-- A `dataavailable` event from recorder `i`: the registered handler pushes
the fragment onto the shared `audioChunksRef` buffer.  Only a recorder that
is still capturing emits fragments. -/
def dataAvailable (i : Nat) (f : Frag) (s : AppState) : AppState :=
  match s.recorders.get? i with
  | some r =>
      if r.state = RecState.recording then { s with audioChunks := s.audioChunks ++ [f] }
      else s
  | none => s

/-- `MediaRecorder.stop()` on recorder `i`.  Per the MediaStream Recording
specification, `stop()` on an inactive recorder aborts with no effect; on a
capturing recorder it halts capture and fires the registered `onstop`
handler, which builds a blob from the accumulated chunks with declared type
`"audio/wav"`, mints an object URL for it, and appends the URL to the
`recordings` list.  (The `onstop` callback runs asynchronously right after
`stop()`; it is folded into this step since no interleaving observed by the
code falls between them, and the final `dataavailable` flush is modelled as
a preceding `dataavailable` event.)  Stopping the recorder does not end the
tracks of its input stream. -/
def recorderStop (i : Nat) (s : AppState) : AppState :=
  match s.recorders.get? i with
  | none => s
  | some r =>
      if r.state = RecState.inactive then s
      else
        { s with recorders := s.recorders.set i { r with state := RecState.inactive },
                 blobs := s.blobs ++ [⟨s.audioChunks.flatten, "audio/wav"⟩],
                 recordings := s.recordings ++ [s.blobs.length] }

/-- `handleStopRecording`: if `mediaRecorderRef.current` holds a recorder,
call its `stop()` and set `isRecording` to `false`; the ref is never
cleared. -/
def handleStopRecording (s : AppState) : AppState :=
  match s.mediaRecorder with
  | none => s
  | some i => { recorderStop i s with isRecording := false }

/-- One event-loop step.  The asynchronous play path appears both as an
atomic step (`playClick`, no interleaving) and split at its fetch suspension
(`playBegin` is `handlePlayClick` up to the `await fetch` inside `playAudio`;
`playResume` is everything after the fetch lands), so that traces can express
the interleavings the event loop allows. -/
inductive Evt where
  | init (dev : String) (bindOk : Bool)
  | playClick (url : String) (o : FetchOutcome)
  | playBegin
  | playResume (url : String) (o : FetchOutcome)
  | stopClick
  | startRec (granted : Bool)
  | stopRec
  | data (i : Nat) (f : Frag)
  | ended
  deriving Repr, DecidableEq

/-- Interpret one event-loop step. -/
def step (s : AppState) (a : Evt) : AppState :=
  match a with
  | Evt.init dev bindOk => (init dev bindOk s).1
  | Evt.playClick url o => handlePlayClick url o s
  | Evt.playBegin => (playAudio_begin s).1
  | Evt.playResume url o => playResumeUI url o s
  | Evt.stopClick => handleStopClick s
  | Evt.startRec granted => (handleStartRecording granted s).1
  | Evt.stopRec => handleStopRecording s
  | Evt.data i f => dataAvailable i f s
  | Evt.ended => deliverEnded s

/-- Run a trace of event-loop steps from the page-load state. -/
def run (acts : List Evt) : AppState :=
  acts.foldl step AppState.initial

/-! ### List helper lemmas -/

/-- Setting the index right after a list's last element of an appended
singleton rewrites that singleton. -/
theorem set_concat_length {α : Type} (l : List α) (a b : α) :
    (l ++ [a]).set l.length b = l ++ [b] := by
  induction l with
  | nil => rfl
  | cons x xs ih => simp [List.set, ih]

/-- `get?` at an index that was just `set` returns the new value when the
index is in bounds. -/
theorem get?_set_self {α : Type} (l : List α) (i : Nat) (b : α) (h : i < l.length) :
    (l.set i b).get? i = some b := by
  induction l generalizing i with
  | nil => simp at h
  | cons x xs ih =>
      cases i with
      | zero => rfl
      | succ j => simpa using ih j (by simpa using h)

/-- A successful `get?` witnesses that the index is in bounds. -/
theorem lt_length_of_get?_eq_some {α : Type} (l : List α) (i : Nat) (a : α)
    (h : l.get? i = some a) : i < l.length := by
  induction l generalizing i with
  | nil => simp at h
  | cons x xs ih =>
      cases i with
      | zero => simp
      | succ j => exact Nat.succ_lt_succ (ih j (by simpa using h))

/-! ### Claim C1 -/

/-- The interleaving of claim C1: a play completes, a second play starts and
suspends in its fetch, the user stops playback, then the fetch lands. -/
def raceTrace : List Evt :=
  [Evt.init "" true, Evt.playClick "a" FetchOutcome.ok, Evt.playBegin,
   Evt.stopClick, Evt.playResume "b" FetchOutcome.ok]

/-- Claim C1 (code bug, evaluation at the failing input): a `stop()` issued
while `play("b")` is suspended in its fetch does not silence the session.
When the fetch lands, `playAudio` resumes, installs and starts the new
source node for "b" and the UI reports `isPlaying`; nothing in the code
checks that a stop intervened.  The specification requires that no handle
ever starts after such a stop. -/
theorem play_race_after_stop :
    (run raceTrace).audioSource = some 1 ∧
    (run raceTrace).nodes.get? 1 =
      some ⟨"b", true, false, none, true, 0⟩ ∧
    (run raceTrace).isPlaying = true ∧
    (run raceTrace).audioSourceRef = some 1 := by
  decide

/-! ### Claim C2 -/

/-- The sequence of claim C2: `play("a")`, then `play("b")` (which stops a's
node), then the event loop delivers the pending `ended` event. -/
def preemptTrace : List Evt :=
  [Evt.init "" true, Evt.playClick "a" FetchOutcome.ok,
   Evt.playClick "b" FetchOutcome.ok, Evt.ended]

/-- Claim C2 (code bug, evaluation at the failing input): after `play("a")`
then `play("b")`, the manual stop of a's node (preemption, page.tsx lines
43-45) schedules a's `ended` event, which the Web Audio API delivers even
for a manually stopped node.  The completion handler installed on a (lines
122-125) therefore fires once, flipping `isPlaying` to `false` and clearing
`audioSourceRef` while b's handle is started and un-stopped (still audible).
The specification says a manually stopped handle's completion notification
never fires. -/
theorem preempted_completion_fires :
    ((run preemptTrace).nodes.get? 0).map SourceNode.endedFired = some 1 ∧
    ((run preemptTrace).nodes.get? 0).map SourceNode.onendedSet = some true ∧
    ((run preemptTrace).nodes.get? 0).map SourceNode.stopped = some true ∧
    (run preemptTrace).audioSource = some 1 ∧
    ((run preemptTrace).nodes.get? 1).map SourceNode.stopped = some false ∧
    (run preemptTrace).isPlaying = false ∧
    (run preemptTrace).audioSourceRef = none := by
  decide

/-! ### Claim C5 -/

/-- The sequence of claim C5: a recording is active with one accumulated
fragment when `handleStartRecording` runs again and the microphone is
granted. -/
def doubleStartTrace : List Evt :=
  [Evt.startRec true, Evt.data 0 [1, 2], Evt.startRec true]

/-- Claim C5 (code bug, evaluation at the failing input): `start()` while a
recording is active is neither rejected nor a no-op.  `handleStartRecording`
has no guard on `isRecording`: it installs a second `MediaRecorder` over the
ref, resets the shared fragment buffer (losing the accumulated fragment
`[1, 2]`) and never stops the first recorder, so two recording pipelines are
active at once. -/
theorem double_start_two_pipelines :
    (run [Evt.startRec true, Evt.data 0 [1, 2]]).audioChunks = [[1, 2]] ∧
    (run doubleStartTrace).audioChunks = [] ∧
    (run doubleStartTrace).recorders =
      [⟨0, RecState.recording⟩, ⟨1, RecState.recording⟩] ∧
    (run doubleStartTrace).mediaRecorder = some 1 ∧
    (run doubleStartTrace).isRecording = true := by
  decide

/-! ### Claim C6 -/

/-- Claim C6 (confirmed): stopping an active recording finalizes exactly one
clip whose bytes are the concatenation of the accumulated fragments in
arrival order, constructs it as one new blob, mints one URL for it (the
blob's index) and appends that URL to the recordings list, which thus grows
append-only in completion order. -/
theorem stop_finalizes_concat (s : AppState) (i : Nat) (r : Recorder)
    (hm : s.mediaRecorder = some i) (hr : s.recorders.get? i = some r)
    (hrec : r.state = RecState.recording) :
    (handleStopRecording s).blobs =
      s.blobs ++ [⟨s.audioChunks.flatten, "audio/wav"⟩] ∧
    (handleStopRecording s).recordings = s.recordings ++ [s.blobs.length] ∧
    (handleStopRecording s).blobs.get? s.blobs.length =
      some ⟨s.audioChunks.flatten, "audio/wav"⟩ ∧
    (handleStopRecording s).isRecording = false := by
  have h1 : handleStopRecording s = { recorderStop i s with isRecording := false } := by
    unfold handleStopRecording; rw [hm]
  have h2 : recorderStop i s =
      { s with recorders := s.recorders.set i ⟨r.streamId, RecState.inactive⟩,
               blobs := s.blobs ++ [⟨s.audioChunks.flatten, "audio/wav"⟩],
               recordings := s.recordings ++ [s.blobs.length] } := by
    unfold recorderStop; rw [hr]; simp [hrec]
  rw [h1, h2]
  refine ⟨rfl, rfl, ?_, rfl⟩
  rw [List.get?_eq_getElem?]
  exact List.getElem?_concat_length s.blobs ⟨s.audioChunks.flatten, "audio/wav"⟩

/-- Witness for C6 at a concrete recording with fragments `[1, 2]` and
`[3]`. -/
theorem stop_finalizes_concat_witness :
    (handleStopRecording (run [Evt.startRec true, Evt.data 0 [1, 2], Evt.data 0 [3]])).blobs =
      (run [Evt.startRec true, Evt.data 0 [1, 2], Evt.data 0 [3]]).blobs ++
        [⟨(run [Evt.startRec true, Evt.data 0 [1, 2], Evt.data 0 [3]]).audioChunks.flatten,
          "audio/wav"⟩] ∧
    (handleStopRecording (run [Evt.startRec true, Evt.data 0 [1, 2], Evt.data 0 [3]])).recordings =
      (run [Evt.startRec true, Evt.data 0 [1, 2], Evt.data 0 [3]]).recordings ++
        [(run [Evt.startRec true, Evt.data 0 [1, 2], Evt.data 0 [3]]).blobs.length] ∧
    (handleStopRecording (run [Evt.startRec true, Evt.data 0 [1, 2], Evt.data 0 [3]])).blobs.get?
        (run [Evt.startRec true, Evt.data 0 [1, 2], Evt.data 0 [3]]).blobs.length =
      some ⟨(run [Evt.startRec true, Evt.data 0 [1, 2], Evt.data 0 [3]]).audioChunks.flatten,
        "audio/wav"⟩ ∧
    (handleStopRecording (run [Evt.startRec true, Evt.data 0 [1, 2], Evt.data 0 [3]])).isRecording =
      false :=
  stop_finalizes_concat _ 0 ⟨0, RecState.recording⟩ (by decide) (by decide) (by decide)

/-! ### Claim C3 -/

/-- A session in which `play("a")` has completed and its handle is playing. -/
def playFailState : AppState :=
  run [Evt.init "" true, Evt.playClick "a" FetchOutcome.ok]

/-- Claim C3 counterexample: a failed operation does not leave session state
unchanged.  With a's handle active (not stopped), `playAudio("b")` whose
fetch fails surfaces `FetchError` — but it has already stopped a's handle
before the fetch suspension (page.tsx lines 43-45), so the prior handle is
newly stopped by the failed call. -/
theorem play_failure_stops_prior_handle :
    (playFailState.nodes.get? 0).map SourceNode.stopped = some false ∧
    (playAudio "b" FetchOutcome.fetchErr playFailState).2 =
      Except.error Err.fetchFailed ∧
    (((playAudio "b" FetchOutcome.fetchErr playFailState).1).nodes.get? 0).map
      SourceNode.stopped = some true := by
  decide

/-- Claim C3 as amended (proved): every fallible operation surfaces its error
to its immediate caller, installs no new handle and half-starts no recording;
but the failure does not leave the whole session state untouched: a failed
`playAudio` leaves the preemptively stopped prior handle stopped (not
restored), and a failed sink bind in `init` leaves the already-created
context and the freshly installed, still unbound route in place.  Part one:
a failing fetch/decode surfaces its error while the context, route, node
table size, current-source field and all recording state are unchanged.
Part two: a denied `getUserMedia` is caught inside `handleStartRecording`
with the state exactly unchanged.  Part three: a failing `setSinkId`
surfaces `InitializationError` with playback and recording state unchanged,
except that the fresh unbound destination is already installed. -/
theorem errors_surfaced_limited_mutation :
    (∀ (s : AppState) (url : String) (o : FetchOutcome), o ≠ FetchOutcome.ok →
      (∃ e, (playAudio url o s).2 = Except.error e) ∧
      (playAudio url o s).1.audioContext = s.audioContext ∧
      (playAudio url o s).1.destination = s.destination ∧
      (playAudio url o s).1.dests = s.dests ∧
      (playAudio url o s).1.nodes.length = s.nodes.length ∧
      (playAudio url o s).1.audioSource = s.audioSource ∧
      (playAudio url o s).1.recorders = s.recorders ∧
      (playAudio url o s).1.mediaRecorder = s.mediaRecorder ∧
      (playAudio url o s).1.audioChunks = s.audioChunks ∧
      (playAudio url o s).1.streams = s.streams ∧
      (playAudio url o s).1.blobs = s.blobs ∧
      (playAudio url o s).1.recordings = s.recordings ∧
      (playAudio url o s).1.isRecording = s.isRecording) ∧
    (∀ s : AppState, handleStartRecording false s = (s, some Err.permissionDenied)) ∧
    (∀ (s : AppState) (dev : String), dev ≠ "" →
      (init dev false s).2 = some Err.sinkBindFailed ∧
      (init dev false s).1.destination = some s.dests.length ∧
      (init dev false s).1.dests = s.dests ++ [⟨none, false⟩] ∧
      (init dev false s).1.nodes = s.nodes ∧
      (init dev false s).1.audioSource = s.audioSource ∧
      (init dev false s).1.isPlaying = s.isPlaying ∧
      (init dev false s).1.recorders = s.recorders ∧
      (init dev false s).1.mediaRecorder = s.mediaRecorder ∧
      (init dev false s).1.audioChunks = s.audioChunks ∧
      (init dev false s).1.streams = s.streams ∧
      (init dev false s).1.blobs = s.blobs ∧
      (init dev false s).1.recordings = s.recordings ∧
      (init dev false s).1.isRecording = s.isRecording) := by
  refine ⟨?_, ?_, ?_⟩
  · intro s url o ho
    unfold playAudio playAudio_begin playAudio_finish stopNode
    cases hctx : s.audioContext with
    | none => cases o <;> simp_all
    | some c =>
        cases hsrc : s.audioSource with
        | none => cases o <;> simp_all
        | some i =>
            simp only [hctx, hsrc]
            cases hni : s.nodes.get? i with
            | none => cases o <;> simp_all
            | some n =>
                cases hstopped : n.stopped <;> cases o <;> simp_all [List.length_set]
  · intro s; rfl
  · intro s dev hdev
    unfold init
    by_cases hctx : s.audioContext.isSome <;> simp_all

/-- Witness for the amended C3 at concrete inputs: a failing fetch after a
completed play, a denied microphone request on the fresh page, and a failing
sink bind on the fresh page. -/
theorem errors_surfaced_limited_mutation_witness :
    (∃ e, (playAudio "b" FetchOutcome.fetchErr playFailState).2 = Except.error e) ∧
    handleStartRecording false AppState.initial =
      (AppState.initial, some Err.permissionDenied) ∧
    (init "D" false AppState.initial).2 = some Err.sinkBindFailed :=
  ⟨(errors_surfaced_limited_mutation.1 playFailState "b" FetchOutcome.fetchErr
      (by decide)).1,
   errors_surfaced_limited_mutation.2.1 AppState.initial,
   (errors_surfaced_limited_mutation.2.2 AppState.initial "D" (by decide)).1⟩

/-! ### Claim C4 -/

/-- `stopNode` never touches the route. -/
theorem stopNode_destination (i : Nat) (s : AppState) :
    (stopNode i s).destination = s.destination := by
  unfold stopNode
  cases s.nodes.get? i with
  | none => rfl
  | some n => by_cases hn : n.stopped <;> simp [hn]

/-- `stopNode` replaces a node in place, keeping the table's length. -/
theorem stopNode_nodesLength (i : Nat) (s : AppState) :
    (stopNode i s).nodes.length = s.nodes.length := by
  unfold stopNode
  cases s.nodes.get? i with
  | none => rfl
  | some n => by_cases hn : n.stopped <;> simp [hn, List.length_set]

/-- The session of claim C4: output device "D" is selected and bound, then
the default output is selected and `init` runs again. -/
def defaultReselectState : AppState :=
  run [Evt.init "D" true, Evt.init "" true]

/-- Claim C4 counterexample: re-selecting the default output does not replace
the route to "D".  `init("")` takes the falsy branch of
`if (outputDeviceId)` and leaves `this.destination` untouched, so the next
play connects its source to the destination bound to "D" rather than to the
context's default output. -/
theorem default_reselect_keeps_route :
    defaultReselectState.destination = some 0 ∧
    defaultReselectState.dests = [⟨some "D", true⟩] ∧
    ((handlePlayClick "u" FetchOutcome.ok defaultReselectState).nodes.get? 0).map
      SourceNode.dest = some (some 0) ∧
    ((handlePlayClick "u" FetchOutcome.ok defaultReselectState).dests.get? 0).map
      DestNode.sinkId = some (some "D") := by
  decide

/-- Claim C4 as amended (proved): re-running `init` with a different nonempty
device id and a successful bind fully replaces the route — `this.destination`
points at a fresh node bound to the new device, and any subsequent successful
play connects its source to whatever `this.destination` holds at play time —
but re-running `init` with the default output selected (empty id) leaves the
previous route installed, so playback connects to the context's default
output only while no route has ever been bound. -/
theorem route_replacement :
    (∀ (s : AppState) (dev : String), dev ≠ "" →
        (init dev true s).1.destination = some s.dests.length ∧
        (init dev true s).1.dests.get? s.dests.length = some ⟨some dev, true⟩) ∧
    (∀ (s : AppState) (b : Bool),
        (init "" b s).1.destination = s.destination ∧
        (init "" b s).1.dests = s.dests) ∧
    (∀ (s : AppState) (url : String) (t : AppState) (n : Nat),
        playAudio url FetchOutcome.ok s = (t, Except.ok n) →
        (t.nodes.get? n).map SourceNode.dest = some s.destination) := by
  refine ⟨?_, ?_, ?_⟩
  · intro s dev hdev
    unfold init
    by_cases hctx : s.audioContext.isSome <;>
      simp [hctx, hdev, set_concat_length, List.get?_eq_getElem?,
        List.getElem?_concat_length]
  · intro s b
    unfold init
    by_cases hctx : s.audioContext.isSome <;> simp [hctx]
  · intro s url t n h
    unfold playAudio playAudio_begin playAudio_finish at h
    cases hctx : s.audioContext with
    | none => rw [hctx] at h; simp at h
    | some c =>
        rw [hctx] at h
        cases hsrc : s.audioSource with
        | none =>
            rw [hsrc] at h
            simp only [Prod.mk.injEq, Except.ok.injEq] at h
            obtain ⟨ht, hn⟩ := h
            subst ht
            rw [← hn]
            simp [List.get?_eq_getElem?, List.getElem?_concat_length]
        | some i =>
            rw [hsrc] at h
            simp only [Prod.mk.injEq, Except.ok.injEq] at h
            obtain ⟨ht, hn⟩ := h
            subst ht
            rw [← hn]
            simp [List.get?_eq_getElem?, List.getElem?_concat_length,
              stopNode_destination]

/-- Witness for the amended C4 at concrete inputs: binding "D2" on the fresh
page, re-initializing with the default selection, and one successful play. -/
theorem route_replacement_witness :
    ((init "D2" true AppState.initial).1.destination = some 0 ∧
      (init "D2" true AppState.initial).1.dests.get? 0 = some ⟨some "D2", true⟩) ∧
    ((init "" true AppState.initial).1.destination = AppState.initial.destination ∧
      (init "" true AppState.initial).1.dests = AppState.initial.dests) ∧
    ((playAudio "u" FetchOutcome.ok (run [Evt.init "" true])).1.nodes.get? 0).map
      SourceNode.dest = some (run [Evt.init "" true]).destination :=
  ⟨route_replacement.1 AppState.initial "D2" (by decide),
   route_replacement.2.1 AppState.initial true,
   route_replacement.2.2 (run [Evt.init "" true]) "u"
     (playAudio "u" FetchOutcome.ok (run [Evt.init "" true])).1 0 (by rfl)⟩

/-! ### Claim C8 -/

/-- Writing `false` into `isRecording` when it already is `false` changes
nothing (the `setIsRecording(false)` call in an idle state is value-level
inert). -/
theorem isRecording_false_update (s : AppState) (h : s.isRecording = false) :
    { s with isRecording := false } = s := by
  cases s
  simp_all

/-- Claim C8 (confirmed): stopping when idle is a no-op and never throws.
With no source in `audioSourceRef`, `handleStopClick` returns without doing
anything; with no source installed in the player, `stopAudio` returns without
doing anything; and with no capturing recorder (the recording side idle),
`handleStopRecording` leaves the state unchanged — its guard skips everything
when no recorder was ever created, and on a stale, already inactive recorder
the `MediaRecorder.stop()` call aborts with no effect per the MediaStream
Recording specification, after which `setIsRecording(false)` rewrites the
already-false flag.  All three are total functions of the model; no error
value exists on these paths. -/
theorem stop_idle_noop (s : AppState)
    (href : s.audioSourceRef = none)
    (hsrc : s.audioSource = none)
    (hflag : s.isRecording = false)
    (hidle : ∀ r ∈ s.recorders, r.state = RecState.inactive) :
    handleStopClick s = s ∧ stopAudio s = s ∧ handleStopRecording s = s := by
  refine ⟨?_, ?_, ?_⟩
  · unfold handleStopClick
    rw [href]
  · unfold stopAudio
    rw [hsrc]
  · unfold handleStopRecording
    cases hm : s.mediaRecorder with
    | none => rfl
    | some i =>
        have hstop : recorderStop i s = s := by
          unfold recorderStop
          cases hri : s.recorders.get? i with
          | none => rfl
          | some r =>
              have hmem : r ∈ s.recorders := List.get?_mem hri
              simp [hidle r hmem]
        show { recorderStop i s with isRecording := false } = s
        rw [hstop]
        exact isRecording_false_update s hflag

/-- Witness for C8 at the concrete idle state reached by one completed
recording (stale recorder ref present, everything idle). -/
theorem stop_idle_noop_witness :
    handleStopClick (run [Evt.startRec true, Evt.stopRec]) =
        run [Evt.startRec true, Evt.stopRec] ∧
    stopAudio (run [Evt.startRec true, Evt.stopRec]) =
        run [Evt.startRec true, Evt.stopRec] ∧
    handleStopRecording (run [Evt.startRec true, Evt.stopRec]) =
        run [Evt.startRec true, Evt.stopRec] :=
  stop_idle_noop (run [Evt.startRec true, Evt.stopRec])
    (by decide) (by decide) (by decide) (by decide)

/-! ### Preservation lemmas for trace invariants -/

/-- The step left the infrastructure fields — context identity, context
creation count, microphone streams, blob table and recordings list —
untouched. -/
def InfraEq (s t : AppState) : Prop :=
  t.audioContext = s.audioContext ∧ t.ctxCreated = s.ctxCreated ∧
  t.streams = s.streams ∧ t.blobs = s.blobs ∧ t.recordings = s.recordings

theorem InfraEq.refl (s : AppState) : InfraEq s s :=
  ⟨rfl, rfl, rfl, rfl, rfl⟩

theorem InfraEq.trans {s t u : AppState} (h1 : InfraEq s t) (h2 : InfraEq t u) :
    InfraEq s u :=
  ⟨h2.1.trans h1.1, h2.2.1.trans h1.2.1, h2.2.2.1.trans h1.2.2.1,
   h2.2.2.2.1.trans h1.2.2.2.1, h2.2.2.2.2.trans h1.2.2.2.2⟩

theorem stopNode_infra (i : Nat) (s : AppState) : InfraEq s (stopNode i s) := by
  unfold stopNode
  cases s.nodes.get? i with
  | none => exact InfraEq.refl s
  | some n => by_cases hn : n.stopped <;> simp [hn] <;> exact InfraEq.refl s

theorem setOnended_infra (i : Nat) (s : AppState) : InfraEq s (setOnended i s) := by
  unfold setOnended
  cases s.nodes.get? i with
  | none => exact InfraEq.refl s
  | some n => exact ⟨rfl, rfl, rfl, rfl, rfl⟩

theorem stopAudio_infra (s : AppState) : InfraEq s (stopAudio s) := by
  unfold stopAudio
  cases s.audioSource with
  | none => exact InfraEq.refl s
  | some i => exact InfraEq.trans (stopNode_infra i s) ⟨rfl, rfl, rfl, rfl, rfl⟩

theorem playBegin_infra (s : AppState) : InfraEq s (playAudio_begin s).1 := by
  unfold playAudio_begin
  cases s.audioContext with
  | none => exact InfraEq.refl s
  | some c =>
      cases s.audioSource with
      | some i => exact stopNode_infra i s
      | none => exact InfraEq.refl s

theorem playFinish_infra (url : String) (o : FetchOutcome) (s : AppState) :
    InfraEq s (playAudio_finish url o s).1 := by
  cases o with
  | ok => exact ⟨rfl, rfl, rfl, rfl, rfl⟩
  | fetchErr => exact InfraEq.refl s
  | decodeErr => exact InfraEq.refl s

theorem playResumeUI_infra (url : String) (o : FetchOutcome) (s : AppState) :
    InfraEq s (playResumeUI url o s) := by
  unfold playResumeUI
  cases o with
  | ok =>
      exact InfraEq.trans (⟨rfl, rfl, rfl, rfl, rfl⟩ : InfraEq s _)
        (setOnended_infra s.nodes.length _)
  | fetchErr => exact InfraEq.refl s
  | decodeErr => exact InfraEq.refl s

theorem handlePlayClick_infra (url : String) (o : FetchOutcome) (s : AppState) :
    InfraEq s (handlePlayClick url o s) := by
  unfold handlePlayClick
  cases hpb : playAudio_begin s with
  | mk s1 e =>
      have hs1 : InfraEq s s1 := by
        have h := playBegin_infra s
        rw [hpb] at h
        exact h
      cases e with
      | none => exact InfraEq.trans hs1 (playResumeUI_infra url o s1)
      | some err => exact InfraEq.trans hs1 ⟨rfl, rfl, rfl, rfl, rfl⟩

theorem handleStopClick_infra (s : AppState) : InfraEq s (handleStopClick s) := by
  unfold handleStopClick
  cases s.audioSourceRef with
  | none => exact InfraEq.refl s
  | some i => exact InfraEq.trans (stopAudio_infra s) ⟨rfl, rfl, rfl, rfl, rfl⟩

theorem deliverEnded_infra (s : AppState) : InfraEq s (deliverEnded s) := by
  unfold InfraEq deliverEnded
  cases s.endedQueue with
  | nil => simp
  | cons i rest =>
      dsimp only
      cases s.nodes.get? i with
      | none => simp
      | some n => by_cases hn : n.onendedSet <;> simp [hn]

theorem dataAvailable_infra (i : Nat) (f : Frag) (s : AppState) :
    InfraEq s (dataAvailable i f s) := by
  unfold dataAvailable
  cases s.recorders.get? i with
  | none => exact InfraEq.refl s
  | some r =>
      by_cases hr : r.state = RecState.recording <;> simp [hr]
      · exact ⟨rfl, rfl, rfl, rfl, rfl⟩
      · exact InfraEq.refl s

theorem handleStartRecording_effect (g : Bool) (s : AppState) :
    (handleStartRecording g s).1.audioContext = s.audioContext ∧
    (handleStartRecording g s).1.ctxCreated = s.ctxCreated ∧
    (handleStartRecording g s).1.blobs = s.blobs ∧
    (handleStartRecording g s).1.recordings = s.recordings ∧
    ((handleStartRecording g s).1.streams = s.streams ∨
      (handleStartRecording g s).1.streams = s.streams ++ [true]) := by
  cases g <;> simp [handleStartRecording]

theorem recorderStop_effect (i : Nat) (s : AppState) :
    (recorderStop i s).audioContext = s.audioContext ∧
    (recorderStop i s).ctxCreated = s.ctxCreated ∧
    (recorderStop i s).streams = s.streams ∧
    (((recorderStop i s).blobs = s.blobs ∧
        (recorderStop i s).recordings = s.recordings) ∨
      ((recorderStop i s).blobs = s.blobs ++ [⟨s.audioChunks.flatten, "audio/wav"⟩] ∧
        (recorderStop i s).recordings = s.recordings ++ [s.blobs.length])) := by
  unfold recorderStop
  cases s.recorders.get? i with
  | none => simp
  | some r => by_cases hr : r.state = RecState.inactive <;> simp [hr]

theorem handleStopRecording_effect (s : AppState) :
    (handleStopRecording s).audioContext = s.audioContext ∧
    (handleStopRecording s).ctxCreated = s.ctxCreated ∧
    (handleStopRecording s).streams = s.streams ∧
    (((handleStopRecording s).blobs = s.blobs ∧
        (handleStopRecording s).recordings = s.recordings) ∨
      ((handleStopRecording s).blobs = s.blobs ++ [⟨s.audioChunks.flatten, "audio/wav"⟩] ∧
        (handleStopRecording s).recordings = s.recordings ++ [s.blobs.length])) := by
  unfold handleStopRecording
  cases s.mediaRecorder with
  | none => simp
  | some i => exact recorderStop_effect i s

theorem init_effect (dev : String) (b : Bool) (s : AppState) :
    (init dev b s).1.streams = s.streams ∧
    (init dev b s).1.blobs = s.blobs ∧
    (init dev b s).1.recordings = s.recordings ∧
    (((init dev b s).1.audioContext = s.audioContext ∧
        (init dev b s).1.ctxCreated = s.ctxCreated) ∨
      (s.audioContext = none ∧ (init dev b s).1.audioContext = some s.ctxCreated ∧
        (init dev b s).1.ctxCreated = s.ctxCreated + 1)) := by
  unfold init
  by_cases hctx : s.audioContext.isSome
  · by_cases hdev : dev = "" <;> cases b <;> simp [hctx, hdev]
  · have hnone : s.audioContext = none := Option.not_isSome_iff_eq_none.mp hctx
    by_cases hdev : dev = "" <;> cases b <;> simp [hctx, hdev, hnone]

/-- Context identity and creation count across one step: either untouched,
or (only on `init` with no context yet) the one lazy creation. -/
theorem step_ctx (s : AppState) (a : Evt) :
    ((step s a).audioContext = s.audioContext ∧
      (step s a).ctxCreated = s.ctxCreated) ∨
    (s.audioContext = none ∧ (step s a).audioContext = some s.ctxCreated ∧
      (step s a).ctxCreated = s.ctxCreated + 1) := by
  cases a with
  | init dev b => exact (init_effect dev b s).2.2.2
  | playClick url o =>
      exact Or.inl ⟨(handlePlayClick_infra url o s).1, (handlePlayClick_infra url o s).2.1⟩
  | playBegin => exact Or.inl ⟨(playBegin_infra s).1, (playBegin_infra s).2.1⟩
  | playResume url o =>
      exact Or.inl ⟨(playResumeUI_infra url o s).1, (playResumeUI_infra url o s).2.1⟩
  | stopClick => exact Or.inl ⟨(handleStopClick_infra s).1, (handleStopClick_infra s).2.1⟩
  | startRec g =>
      exact Or.inl ⟨(handleStartRecording_effect g s).1, (handleStartRecording_effect g s).2.1⟩
  | stopRec => exact Or.inl ⟨(handleStopRecording_effect s).1, (handleStopRecording_effect s).2.1⟩
  | data i f => exact Or.inl ⟨(dataAvailable_infra i f s).1, (dataAvailable_infra i f s).2.1⟩
  | ended => exact Or.inl ⟨(deliverEnded_infra s).1, (deliverEnded_infra s).2.1⟩

/-- Microphone streams across one step: untouched, or (only on a granted
recording start) one fresh live stream appended.  No step ever releases a
stream. -/
theorem step_streams (s : AppState) (a : Evt) :
    (step s a).streams = s.streams ∨ (step s a).streams = s.streams ++ [true] := by
  cases a with
  | init dev b => exact Or.inl (init_effect dev b s).1
  | playClick url o => exact Or.inl (handlePlayClick_infra url o s).2.2.1
  | playBegin => exact Or.inl (playBegin_infra s).2.2.1
  | playResume url o => exact Or.inl (playResumeUI_infra url o s).2.2.1
  | stopClick => exact Or.inl (handleStopClick_infra s).2.2.1
  | startRec g => exact (handleStartRecording_effect g s).2.2.2.2
  | stopRec => exact Or.inl (handleStopRecording_effect s).2.2.1
  | data i f => exact Or.inl (dataAvailable_infra i f s).2.2.1
  | ended => exact Or.inl (deliverEnded_infra s).2.2.1

/-- Blob table and recordings list across one step: untouched, or (only on a
finalizing recording stop) one `"audio/wav"` blob appended with its index
appended as the minted URL. -/
theorem step_clips (s : AppState) (a : Evt) :
    ((step s a).blobs = s.blobs ∧ (step s a).recordings = s.recordings) ∨
    ((step s a).blobs = s.blobs ++ [⟨s.audioChunks.flatten, "audio/wav"⟩] ∧
      (step s a).recordings = s.recordings ++ [s.blobs.length]) := by
  cases a with
  | init dev b => exact Or.inl ⟨(init_effect dev b s).2.1, (init_effect dev b s).2.2.1⟩
  | playClick url o =>
      exact Or.inl ⟨(handlePlayClick_infra url o s).2.2.2.1,
        (handlePlayClick_infra url o s).2.2.2.2⟩
  | playBegin => exact Or.inl ⟨(playBegin_infra s).2.2.2.1, (playBegin_infra s).2.2.2.2⟩
  | playResume url o =>
      exact Or.inl ⟨(playResumeUI_infra url o s).2.2.2.1, (playResumeUI_infra url o s).2.2.2.2⟩
  | stopClick =>
      exact Or.inl ⟨(handleStopClick_infra s).2.2.2.1, (handleStopClick_infra s).2.2.2.2⟩
  | startRec g =>
      exact Or.inl ⟨(handleStartRecording_effect g s).2.2.1,
        (handleStartRecording_effect g s).2.2.2.1⟩
  | stopRec => exact (handleStopRecording_effect s).2.2.2
  | data i f =>
      exact Or.inl ⟨(dataAvailable_infra i f s).2.2.2.1, (dataAvailable_infra i f s).2.2.2.2⟩
  | ended => exact Or.inl ⟨(deliverEnded_infra s).2.2.2.1, (deliverEnded_infra s).2.2.2.2⟩

/-- Induction along a trace: a property holding at page load and preserved by
every step holds after every trace. -/
theorem run_inv (P : AppState → Prop) (hstep : ∀ s a, P s → P (step s a))
    (h0 : P AppState.initial) (acts : List Evt) : P (run acts) := by
  have key : ∀ (l : List Evt) (s : AppState), P s → P (l.foldl step s) := by
    intro l
    induction l with
    | nil => intro s hs; exact hs
    | cons a t ih => intro s hs; exact ih (step s a) (hstep s a hs)
  exact key acts AppState.initial h0

/-! ### Claim C9 -/

/-- Claim C9 (confirmed): `init` creates the `AudioContext` only if absent.
A further `init` — with or without a device id, succeeding or failing —
leaves an existing context (and the creation count) unchanged, and along
every event trace from page load at most one context is ever constructed. -/
theorem init_idempotent_context :
    (∀ (s : AppState) (dev : String) (b : Bool), s.audioContext.isSome →
        (init dev b s).1.audioContext = s.audioContext ∧
        (init dev b s).1.ctxCreated = s.ctxCreated) ∧
    (∀ acts : List Evt, (run acts).ctxCreated ≤ 1) := by
  constructor
  · intro s dev b hctx
    rcases (init_effect dev b s).2.2.2 with h | h
    · exact h
    · rw [h.1] at hctx
      cases hctx
  · intro acts
    have h := run_inv
      (fun s => s.ctxCreated ≤ 1 ∧ (s.audioContext = none → s.ctxCreated = 0))
      ?_ ⟨by decide, fun _ => rfl⟩ acts
    · exact h.1
    · intro s a hP
      rcases step_ctx s a with ⟨h1, h2⟩ | ⟨h0, h1, h2⟩
      · refine ⟨h2 ▸ hP.1, fun hn => ?_⟩
        rw [h1] at hn
        exact h2 ▸ hP.2 hn
      · refine ⟨?_, fun hn => ?_⟩
        · rw [h2, hP.2 h0]
        · rw [h1] at hn
          cases hn
/-- Witness for C9 part one at the concrete state one `init` produced. -/
theorem init_idempotent_context_witness :
    (init "D3" true (run [Evt.init "" true])).1.audioContext =
        (run [Evt.init "" true]).audioContext ∧
    (init "D3" true (run [Evt.init "" true])).1.ctxCreated =
        (run [Evt.init "" true]).ctxCreated :=
  init_idempotent_context.1 (run [Evt.init "" true]) "D3" true (by decide)

/-! ### Claim C7 -/

/-- Claim C7 (code bug, evaluation at the failing input, plus the general
fact): after start → fragment → stop, the clip is finalized and `isRecording`
is cleared, but the microphone stream opened by `getUserMedia` is still live:
`handleStopRecording` only calls `MediaRecorder.stop()` and nothing in the
code ever ends the stream's tracks — along every event trace all opened
microphone streams remain live.  The specification requires the stream to be
released on stop. -/
theorem stream_not_released :
    (run [Evt.startRec true, Evt.data 0 [7], Evt.stopRec]).streams = [true] ∧
    (run [Evt.startRec true, Evt.data 0 [7], Evt.stopRec]).isRecording = false ∧
    (run [Evt.startRec true, Evt.data 0 [7], Evt.stopRec]).recordings = [0] ∧
    (∀ acts : List Evt, (run acts).streams.all (fun b => b) = true) := by
  refine ⟨by decide, by decide, by decide, ?_⟩
  intro acts
  refine run_inv (fun s => s.streams.all (fun b => b) = true) ?_ (by decide) acts
  intro s a hP
  rcases step_streams s a with h | h
  · rw [h]; exact hP
  · rw [h]; simp [List.all_append, hP]

/-! ### Claim C10 -/

/-- Claim C10 (confirmed): along every event trace, every finalized clip blob
carries the declared MIME type `"audio/wav"` — whatever bytes the capture
unit actually delivered in its fragments — and every minted recording URL
refers to such a blob. -/
theorem blobs_declared_wav (acts : List Evt) :
    (∀ b ∈ (run acts).blobs, b.type = "audio/wav") ∧
    (∀ u ∈ (run acts).recordings,
      ∃ bl, (run acts).blobs.get? u = some bl ∧ bl.type = "audio/wav") := by
  have h := run_inv
    (fun s => (∀ b ∈ s.blobs, b.type = "audio/wav") ∧
      (∀ u ∈ s.recordings, u < s.blobs.length))
    ?_ ⟨by simp [AppState.initial], by simp [AppState.initial]⟩ acts
  · refine ⟨h.1, fun u hu => ?_⟩
    have hlt := h.2 u hu
    refine ⟨(run acts).blobs.get ⟨u, hlt⟩, List.get?_eq_get hlt, ?_⟩
    exact h.1 _ (List.get_mem _ _ _)
  · intro s a hP
    rcases step_clips s a with ⟨hb, hr⟩ | ⟨hb, hr⟩
    · rw [hb, hr]
      exact hP
    · constructor
      · intro b hbmem
        rw [hb] at hbmem
        rcases List.mem_append.mp hbmem with h1 | h1
        · exact hP.1 b h1
        · simp at h1
          rw [h1]
      · intro u hu
        rw [hr] at hu
        rw [hb, List.length_append]
        rcases List.mem_append.mp hu with h1 | h1
        · exact Nat.lt_of_lt_of_le (hP.2 u h1) (Nat.le_add_right _ _)
        · simp at h1
          rw [h1]
          simp

/-- Witness for C10 at a concrete recording whose capture bytes are
arbitrary. -/
theorem blobs_declared_wav_witness :
    (Blob.mk [5] "audio/wav").type = "audio/wav" ∧
    (∃ bl, (run [Evt.startRec true, Evt.data 0 [5], Evt.stopRec]).blobs.get? 0 =
        some bl ∧ bl.type = "audio/wav") :=
  ⟨(blobs_declared_wav [Evt.startRec true, Evt.data 0 [5], Evt.stopRec]).1
      ⟨[5], "audio/wav"⟩ (by decide),
   (blobs_declared_wav [Evt.startRec true, Evt.data 0 [5], Evt.stopRec]).2 0 (by decide)⟩
